import Mathlib

/-!
Verification of the service registry and crash-safe persistence subsystem of
the control-panel repository.  The Python sources embedded here are
src/utils/config.py (config store, port allocator, environment mirror,
recovery engine), src/utils/service.py (registry facade), the edit command of
src/control_panel/cli/management_commands.py, and the post-start port
reconciliation of src/control_panel/utils/service.py.

Strings are Lean `String`s, but every string operation the code performs
(Python `str.strip`, `str.split("=", 1)`, `int(...)`, `str(...)`) is given an
explicit executable model over the underlying character list, because the
built-in `String` primitives do not reduce in the kernel.
-/

namespace ControlPanel

/-- Python `str.strip()` on one side: drop leading whitespace. -/
def dropWS (cs : List Char) : List Char := cs.dropWhile Char.isWhitespace

/-- Model of Python `line.strip()`: remove leading and trailing whitespace. -/
def stripLine (s : String) : String :=
  String.mk ((dropWS (dropWS s.data).reverse).reverse)

/-- Split a character list at the first occurrence of the separator
character; `none` when the separator does not occur.  Models Python
`sep in line` / `line.split(sep, 1)`. -/
def splitFirst (sep : Char) : List Char → Option (List Char × List Char)
  | [] => none
  | c :: rest =>
    if c = sep then some ([], rest)
    else
      match splitFirst sep rest with
      | none => none
      | some kv => some (c :: kv.1, kv.2)

/-- Model of Python `if "=" in line: key, value = line.split("=", 1)`. -/
def splitEq (line : String) : Option (String × String) :=
  match splitFirst '=' line.data with
  | none => none
  | some kv => some (String.mk kv.1, String.mk kv.2)

/-- Decimal digit to character. -/
def digitChar (d : Nat) : Char :=
  match d with
  | 0 => '0' | 1 => '1' | 2 => '2' | 3 => '3' | 4 => '4'
  | 5 => '5' | 6 => '6' | 7 => '7' | 8 => '8' | _ => '9'

/-- Fuel-indexed decimal digit expansion (most significant digit first). -/
def natDigitsAux : Nat → Nat → List Char
  | 0, _ => []
  | fuel + 1, n =>
    if n < 10 then [digitChar n]
    else natDigitsAux fuel (n / 10) ++ [digitChar (n % 10)]

/-- Model of Python `str(n)` for a natural number. -/
def natToString (n : Nat) : String := String.mk (natDigitsAux (n + 1) n)

/-- Character to decimal digit value, `none` for non-digits. -/
def charDigit (c : Char) : Option Nat :=
  if '0' ≤ c ∧ c ≤ '9' then some (c.toNat - 48) else none

/-- Accumulating decimal parse of a character list. -/
def parseDigits : Nat → List Char → Option Nat
  | acc, [] => some acc
  | acc, c :: rest =>
    match charDigit c with
    | none => none
    | some d => parseDigits (acc * 10 + d) rest

/-- Model of Python `int(s)` for non-negative decimal strings; `none` models
the `ValueError` raised on any other input. -/
def strToNat (s : String) : Option Nat :=
  match s.data with
  | [] => none
  | cs => parseDigits 0 cs

/-- Python dict write `d[k] = v`: overwrite in place when the key is present
(Python dicts keep the original insertion position), append otherwise. -/
def dictInsert (k : String) (v : α) : List (String × α) → List (String × α)
  | [] => [(k, v)]
  | (k2, v2) :: rest =>
    if k2 = k then (k, v) :: rest else (k2, v2) :: dictInsert k v rest

/-- Python dict read `d[k]` / membership `k in d`. -/
def dictLookup (k : String) : List (String × α) → Option α
  | [] => none
  | (k2, v) :: rest => if k2 = k then some v else dictLookup k rest

/-- Python `del d[k]` (for a dict, the single binding of `k` disappears). -/
def dictErase (k : String) : List (String × α) → List (String × α)
  | [] => []
  | (k2, v) :: rest => if k2 = k then rest else (k2, v) :: dictErase k rest

/-- One managed process definition, the value stored under
`config["services"][name]` in src/utils/config.py. -/
structure ServiceEntry where
  command : String
  port : Nat
  working_dir : String
  enabled : Bool
  env : List (String × String)
deriving DecidableEq

/-- A named allocation pool, the value stored under
`config["port_ranges"][name]`; the Python key `end` is spelled `end_`. -/
structure PortRange where
  start : Nat
  end_ : Nat
deriving DecidableEq

/-- The JSON document of the primary store. -/
structure Config where
  services : List (String × ServiceEntry)
  port_ranges : List (String × PortRange)
deriving DecidableEq

/-- Content of the primary store file: missing, present but not valid JSON,
or a parsed document. -/
inductive StoreFile where
  | absent
  | corrupt
  | valid (c : Config)
deriving DecidableEq

/-- The filesystem state the subsystem owns: the primary store, the
environment-mirror files (name to list of lines), and the backup directory
(file copies in creation order). -/
structure FSState where
  store : StoreFile
  envFiles : List (String × List String)
  backups : List StoreFile
deriving DecidableEq

/-- The default document written by `initialize_config`. -/
def defaultConfig : Config :=
  { services := []
    port_ranges := [("default", { start := 8000, end_ := 9000 })] }

/-- src/utils/config.py `initialize_config`: create the file with the default
document when it does not exist; the Bool is the Python return value. -/
def initialize_config (st : FSState) : FSState × Bool :=
  match st.store with
  | .absent => ({ st with store := .valid defaultConfig }, true)
  | _ => (st, false)

/-- src/utils/config.py `load_config`: initialize when missing, then
`json.load` the file; `none` models the `json.JSONDecodeError` escaping. -/
def load_config (st : FSState) : Option (Config × FSState) :=
  let st1 := (initialize_config st).1
  match st1.store with
  | .valid c => some (c, st1)
  | _ => none

/-- src/utils/config.py `backup_config`: when the store file exists, copy it
verbatim into the backup directory; the Bool records whether a path (rather
than `None`) was returned. -/
def backup_config (st : FSState) : FSState × Bool :=
  match st.store with
  | .absent => (st, false)
  | s => ({ st with backups := st.backups ++ [s] }, true)

/-- src/utils/config.py `save_config`: when the store file exists, try to
load it and back it up when it holds at least one service (a parse error is
caught and ignored), then overwrite the file with the new document. -/
def save_config (config : Config) (st : FSState) : FSState :=
  let st1 :=
    match st.store with
    | .absent => st
    | .corrupt => st
    | .valid c => if c.services.isEmpty then st else (backup_config st).1
  { st1 with store := .valid config }

/-- src/utils/config.py `find_available_port` inner loop:
`for port in range(s, s + n): if port not in used: return port`. -/
def findPortAux (used : List Nat) : Nat → Nat → Option Nat
  | _, 0 => none
  | s, n + 1 => if used.contains s then findPortAux used (s + 1) n else some s

/-- src/utils/config.py `find_available_port`: first port of
`range(start, end + 1)` not used by any service of the loaded config;
`none` models the `ValueError` raised when the range is exhausted. -/
def find_available_port (pr : PortRange) (config : Config) : Option Nat :=
  let used := config.services.map (fun sv => sv.2.port)
  findPortAux used pr.start (pr.end_ + 1 - pr.start)

/-- The lines src/utils/config.py `create_env_file` writes: `COMMAND`, then
`WORKING_DIR` when truthy, then `PORT`, then every entry of `env`. -/
def envFileLines (sc : ServiceEntry) : List String :=
  ("COMMAND=" ++ sc.command)
    :: ((if sc.working_dir ≠ "" then ["WORKING_DIR=" ++ sc.working_dir] else [])
      ++ ("PORT=" ++ natToString sc.port)
      :: sc.env.map (fun kv => kv.1 ++ "=" ++ kv.2))

/-- src/utils/config.py `create_env_file`: overwrite the mirror file of the
service with the serialized entry. -/
def create_env_file (name : String) (sc : ServiceEntry) (st : FSState) : FSState :=
  { st with envFiles := dictInsert name (envFileLines sc) st.envFiles }

/-- The mutable parse state of the per-file loop of
src/utils/config.py `recover_from_env_files`. -/
structure ParsedEnv where
  env_vars : List (String × String)
  command : Option String
  port : Option Nat
  working_dir : String
deriving DecidableEq

/-- Initial parse state; the code hardcodes `"/home/simonsays"` as the
default working directory. -/
def initParsedEnv : ParsedEnv :=
  { env_vars := [], command := none, port := none
    working_dir := "/home/simonsays" }

/-- One iteration of the line loop of `recover_from_env_files`: strip the
line, skip it unless it contains an equals sign, then dispatch on the key;
`none` models the `ValueError` of `int(value)` on a bad `PORT` value. -/
def parseEnvLine (ps : ParsedEnv) (rawLine : String) : Option ParsedEnv :=
  match splitEq (stripLine rawLine) with
  | none => some ps
  | some kv =>
    if kv.1 = "COMMAND" then some { ps with command := some kv.2 }
    else if kv.1 = "PORT" then
      match strToNat kv.2 with
      | none => none
      | some n => some { ps with port := some n }
    else if kv.1 = "WORKING_DIR" then some { ps with working_dir := kv.2 }
    else some { ps with env_vars := dictInsert kv.1 kv.2 ps.env_vars }

/-- The whole line loop over one mirror file. -/
def parseEnvFile (lines : List String) : Option ParsedEnv :=
  lines.foldlM parseEnvLine initParsedEnv

/-- Python truthiness of the guard `if command and port:`. -/
def parsedTruthy (ps : ParsedEnv) : Bool :=
  match ps.command, ps.port with
  | some c, some p => c ≠ "" && p ≠ 0
  | _, _ => false

/-- The dict value `recover_from_env_files` stores for an accepted record. -/
def recoveredEntry (ps : ParsedEnv) (enabled : Bool) : ServiceEntry :=
  { command := ps.command.getD ""
    port := ps.port.getD 0
    working_dir := ps.working_dir
    enabled := enabled
    env := ps.env_vars }

/-- One environment-mirror file on disk: the service name derived from the
file stem, and the file content as lines. -/
structure MirrorFile where
  name : String
  lines : List String
deriving DecidableEq

/-- src/utils/config.py `recover_from_env_files`.  `isActive` and
`isEnabled` model the two `systemctl --user is-active` / `is-enabled`
queries (returncode 0); a file whose unit is not active is skipped before
being opened; a record is stored only when `command and port` is truthy;
`none` models the unhandled `ValueError` of a malformed `PORT` line. -/
def recover_from_env_files (isActive isEnabled : String → Bool) :
    List MirrorFile → Option (List (String × ServiceEntry))
  | [] => some []
  | f :: rest =>
    if isActive f.name then
      match parseEnvFile f.lines with
      | none => none
      | some ps =>
        match recover_from_env_files isActive isEnabled rest with
        | none => none
        | some tail =>
          if parsedTruthy ps then
            some ((f.name, recoveredEntry ps (isEnabled f.name)) :: tail)
          else some tail
    else recover_from_env_files isActive isEnabled rest

/-- src/utils/config.py `recover_config`: rebuild the document from the
mirror files, back up the current store when it exists, save the rebuilt
document, and return the number of recovered services. -/
def recover_config (isActive isEnabled : String → Bool) (files : List MirrorFile)
    (st : FSState) : Option (Nat × FSState) :=
  match recover_from_env_files isActive isEnabled files with
  | none => none
  | some recovered =>
    let new_config : Config :=
      { services := recovered
        port_ranges := [("default", { start := 8000, end_ := 9000 })] }
    let st1 := match st.store with | .absent => st | _ => (backup_config st).1
    some (recovered.length, save_config new_config st1)

/-- Python truthiness of an optional integer argument (None and 0 falsy). -/
def natTruthy (o : Option Nat) : Bool :=
  match o with
  | none => false
  | some n => n ≠ 0

/-- The env-var loop shared by `register_service` and the edit command:
`for v in env_vars: if "=" in v: key, value = v.split("=", 1); d[key] = value`. -/
def processEnvVars (env_vars : List String) (init : List (String × String)) :
    List (String × String) :=
  env_vars.foldl
    (fun acc v =>
      match splitEq v with
      | none => acc
      | some kv => dictInsert kv.1 kv.2 acc)
    init

/-- The ServiceEntry `register_service` builds on its success path. -/
def registeredEntry (command : String) (p : Nat) (working_dir home : String)
    (env_vars : List String) : ServiceEntry :=
  { command := command
    port := p
    working_dir := if working_dir ≠ "" then working_dir else home
    enabled := false
    env := dictInsert "PORT" (natToString p) (processEnvVars env_vars []) }

/-- src/utils/service.py `register_service`.  `home` models
`str(Path.home())`; the outer `none` models the `json.JSONDecodeError`
escaping from `load_config` on a corrupt store.  The returned pair is the
Python `(False, message)` / `(True, port)` value together with the final
filesystem state. -/
def register_service (st : FSState) (name command : String) (port : Option Nat)
    (working_dir : String) (range_name : String) (env_vars : List String)
    (home : String) : Option ((Bool × (String ⊕ Nat)) × FSState) :=
  match load_config st with
  | none => none
  | some (config, st1) =>
    if (dictLookup name config.services).isSome then
      some ((false, .inl ("Service " ++ name ++ " already exists")), st1)
    else
      let portResult : String ⊕ Nat :=
        if natTruthy port then .inr (port.getD 0)
        else
          match dictLookup range_name config.port_ranges with
          | none => .inl ("Port range " ++ range_name ++ " not defined")
          | some pr =>
            match find_available_port pr config with
            | none =>
              .inl ("No available ports in range "
                ++ natToString pr.start ++ "-" ++ natToString pr.end_)
            | some p => .inr p
      match portResult with
      | .inl msg => some ((false, .inl msg), st1)
      | .inr p =>
        let service_config := registeredEntry command p working_dir home env_vars
        let config2 :=
          { config with services := config.services ++ [(name, service_config)] }
        let st2 := save_config config2 st1
        some ((true, .inr p), create_env_file name service_config st2)

/-- src/utils/service.py `unregister_service`.  The systemd stop/disable
calls are best-effort side effects outside the modelled state; removing a
missing mirror file is guarded by `env_file.exists()`. -/
def unregister_service (st : FSState) (name : String) :
    Option ((Bool × Option String) × FSState) :=
  match load_config st with
  | none => none
  | some (config, st1) =>
    if (dictLookup name config.services).isSome then
      let config2 := { config with services := dictErase name config.services }
      let st2 := save_config config2 st1
      some ((true, none), { st2 with envFiles := dictErase name st2.envFiles })
    else
      some ((false, some ("Service " ++ name ++ " not found")), st1)

/-- Python truthiness of an optional string argument (None and "" falsy). -/
def strTruthy (o : Option String) : Bool :=
  match o with
  | none => false
  | some s => s ≠ ""

/-- Arguments of the edit command of
src/control_panel/cli/management_commands.py (click options default to
`None`; `env_add` and `env_remove` are the `multiple=True` tuples). -/
structure EditArgs where
  command : Option String
  port : Option Nat
  path : Option String
  env_add : List String
  env_remove : List String
  detect_port : Bool
deriving DecidableEq

/-- The in-memory mutation the edit command performs on the stored service
dict before saving: update command and working directory when truthy, take
the detected port when detection is requested and succeeds, else an
explicitly given truthy port, apply `env_add` then `env_remove`, and resync
`env["PORT"]` only under `if port or detect_port`.  `detected` models the
`detect_service_port(name)` result. -/
def edit_service (service : ServiceEntry) (args : EditArgs)
    (detected : Option Nat) : ServiceEntry :=
  let s1 :=
    if strTruthy args.command then { service with command := args.command.getD "" }
    else service
  let s2 :=
    if strTruthy args.path then { s1 with working_dir := args.path.getD "" }
    else s1
  let s3 :=
    if args.detect_port then
      if natTruthy detected then { s2 with port := detected.getD 0 } else s2
    else if natTruthy args.port then { s2 with port := args.port.getD 0 }
    else s2
  let portVar : Option Nat :=
    if args.detect_port && natTruthy detected then detected else args.port
  let s4 := { s3 with env := processEnvVars args.env_add s3.env }
  let s5 :=
    { s4 with env := args.env_remove.foldl (fun acc k => dictErase k acc) s4.env }
  if natTruthy portVar || args.detect_port then
    { s5 with env := dictInsert "PORT" (natToString s5.port) s5.env }
  else s5

/-- The post-start reconciliation block of `control_service` in
src/control_panel/utils/service.py: when a port is detected and differs from
the stored one, overwrite `port` and `env["PORT"]`. -/
def reconcile_after_start (service : ServiceEntry) (detected : Option Nat) :
    ServiceEntry :=
  match detected with
  | none => service
  | some p =>
    if p ≠ service.port then
      { service with port := p, env := dictInsert "PORT" (natToString p) service.env }
    else service

/-! ## Helper lemmas about the port scan -/

theorem findPortAux_some (used : List Nat) :
    ∀ n s p, findPortAux used s n = some p →
      s ≤ p ∧ p < s + n ∧ used.contains p = false ∧
        ∀ q, s ≤ q → q < p → used.contains q = true := by
  intro n
  induction n with
  | zero => intro s p h; simp [findPortAux] at h
  | succ n ih =>
    intro s p h
    by_cases hc : used.contains s = true
    · rw [findPortAux, if_pos hc] at h
      obtain ⟨h1, h2, h3, h4⟩ := ih (s + 1) p h
      refine ⟨by omega, by omega, h3, ?_⟩
      intro q hq hqp
      rcases Nat.eq_or_lt_of_le hq with hqs | hlt
      · exact hqs ▸ hc
      · exact h4 q hlt hqp
    · rw [findPortAux, if_neg hc] at h
      obtain rfl : s = p := by exact Option.some.inj h
      refine ⟨Nat.le_refl s, by omega, by simpa using hc, ?_⟩
      intro q hq hqp; omega

theorem findPortAux_none (used : List Nat) :
    ∀ n s, findPortAux used s n = none ↔
      ∀ q, s ≤ q → q < s + n → used.contains q = true := by
  intro n
  induction n with
  | zero =>
    intro s
    simp only [findPortAux, true_iff]
    intro q hq hq2; omega
  | succ n ih =>
    intro s
    by_cases hc : used.contains s = true
    · rw [findPortAux, if_pos hc, ih (s + 1)]
      constructor
      · intro h q hq hq2
        rcases Nat.eq_or_lt_of_le hq with hqs | hlt
        · exact hqs ▸ hc
        · exact h q hlt (by omega)
      · intro h q hq hq2
        exact h q (by omega) (by omega)
    · rw [findPortAux, if_neg hc]
      constructor
      · intro h; exact absurd h (Option.some_ne_none s)
      · intro h; exact absurd (h s (Nat.le_refl s) (by omega)) hc

theorem usedPorts_contains (config : Config) (q : Nat) :
    (config.services.map (fun sv => sv.2.port)).contains q = true ↔
      ∃ sv ∈ config.services, sv.2.port = q := by
  simp [List.contains, List.elem_iff, List.mem_map, eq_comm]

/-- Claim C2: for every port range with start ≤ end and every current set of
service ports, `find_available_port` returns the smallest integer of the
inclusive range that is no service's port, and it signals exhaustion
(raises `ValueError`, modelled as `none`) iff every integer of the range is
some service's port. -/
theorem find_available_port_correct (pr : PortRange) (config : Config)
    (h : pr.start ≤ pr.end_) :
    (∀ p, find_available_port pr config = some p →
      pr.start ≤ p ∧ p ≤ pr.end_ ∧
      (∀ sv ∈ config.services, sv.2.port ≠ p) ∧
      ∀ q, pr.start ≤ q → q ≤ pr.end_ →
        (∀ sv ∈ config.services, sv.2.port ≠ q) → p ≤ q) ∧
    (find_available_port pr config = none ↔
      ∀ q, pr.start ≤ q → q ≤ pr.end_ → ∃ sv ∈ config.services, sv.2.port = q) := by
  constructor
  · intro p hp
    obtain ⟨h1, h2, h3, h4⟩ := findPortAux_some _ _ _ _ hp
    refine ⟨h1, by omega, ?_, ?_⟩
    · intro sv hsv heq
      have hmem := (usedPorts_contains config p).2 ⟨sv, hsv, heq⟩
      rw [h3] at hmem
      exact Bool.false_ne_true hmem
    · intro q hq hq2 hfree
      by_contra hlt
      have := h4 q hq (by omega)
      obtain ⟨sv, hsv, heq⟩ := (usedPorts_contains config q).1 this
      exact hfree sv hsv heq
  · rw [find_available_port, findPortAux_none]
    constructor
    · intro hall q hq hq2
      exact (usedPorts_contains config q).1 (hall q hq (by omega))
    · intro hall q hq hq2
      exact (usedPorts_contains config q).2 (hall q hq (by omega))

/-- Witness configuration: one registered service holding port 8000. -/
def wEntry : ServiceEntry :=
  { command := "run", port := 8000, working_dir := "/root", enabled := false
    env := [("PORT", "8000")] }

/-- Witness configuration used to instantiate the hypothetical theorems. -/
def wConfig : Config :=
  { services := [("svc", wEntry)]
    port_ranges := [("default", { start := 8000, end_ := 8002 })] }

theorem find_available_port_correct_witness :
    find_available_port { start := 8000, end_ := 8002 } wConfig = some 8001 ∧
    8000 ≤ 8001 ∧ 8001 ≤ 8002 := by
  have h :=
    (find_available_port_correct { start := 8000, end_ := 8002 } wConfig
        (by decide)).1 8001 (by decide)
  exact ⟨by decide, h.1, h.2.1⟩

/-- Claim C8: `load_config` never fails on a missing store: it writes the
default document (empty services, a single default range 8000-9000) and
returns it; it fails (the parse error escapes) iff the file exists but does
not parse; on a parseable store it returns the parsed document unchanged. -/
theorem load_config_spec (st : FSState) :
    (st.store = .absent →
      load_config st =
        some (defaultConfig, { st with store := .valid defaultConfig })) ∧
    (load_config st = none ↔ st.store = .corrupt) ∧
    ∀ c, st.store = .valid c → load_config st = some (c, st) := by
  obtain ⟨store, envFiles, backups⟩ := st
  cases store <;>
    simp [load_config, initialize_config]

theorem load_config_spec_witness :
    load_config { store := .absent, envFiles := [], backups := [] } =
      some (defaultConfig,
        { store := .valid defaultConfig, envFiles := [], backups := [] }) ∧
    load_config { store := .corrupt, envFiles := [], backups := [] } = none := by
  refine ⟨(load_config_spec _).1 rfl, ?_⟩
  exact (load_config_spec
    { store := .corrupt, envFiles := [], backups := [] }).2.1.mpr rfl

/-- Claim C1: when the primary store exists and parses with at least one
service, `save_config` first appends one backup equal to the pre-save store
content and only then overwrites the store with the new document (mirror
files untouched); when the store exists but is corrupt, it overwrites
without producing any backup. -/
theorem save_config_backup_rule (st : FSState) (newConfig : Config) :
    (∀ c, st.store = .valid c → c.services ≠ [] →
      (save_config newConfig st).backups = st.backups ++ [.valid c] ∧
      (save_config newConfig st).store = .valid newConfig ∧
      (save_config newConfig st).envFiles = st.envFiles) ∧
    (st.store = .corrupt →
      save_config newConfig st = { st with store := .valid newConfig }) := by
  obtain ⟨store, envFiles, backups⟩ := st
  cases store <;>
    simp_all [save_config, backup_config, List.isEmpty_iff]

theorem save_config_backup_rule_witness :
    (save_config defaultConfig
        { store := .valid wConfig, envFiles := [], backups := [] }).backups =
      [.valid wConfig] ∧
    (save_config defaultConfig
        { store := .valid wConfig, envFiles := [], backups := [] }).store =
      .valid defaultConfig ∧
    save_config defaultConfig
        { store := .corrupt, envFiles := [], backups := [] } =
      { store := .valid defaultConfig, envFiles := [], backups := [] } := by
  have h :=
    (save_config_backup_rule
      { store := .valid wConfig, envFiles := [], backups := [] }
      defaultConfig).1 wConfig rfl (by decide)
  have h2 :=
    (save_config_backup_rule
      { store := .corrupt, envFiles := [], backups := [] } defaultConfig).2 rfl
  exact ⟨h.1, h.2.1, h2⟩

/-! ## Helper lemmas about the dict model -/

theorem dictLookup_eq_none_of_not_mem (k : String) (l : List (String × α))
    (h : k ∉ l.map Prod.fst) : dictLookup k l = none := by
  induction l with
  | nil => rfl
  | cons kv rest ih =>
    obtain ⟨k2, v⟩ := kv
    simp only [List.map_cons, List.mem_cons, not_or] at h
    simp only [dictLookup]
    rw [if_neg (fun he => h.1 he.symm)]
    exact ih h.2

theorem dictLookup_dictErase_self (k : String) (l : List (String × α))
    (h : (l.map Prod.fst).Nodup) : dictLookup k (dictErase k l) = none := by
  induction l with
  | nil => rfl
  | cons kv rest ih =>
    obtain ⟨k2, v⟩ := kv
    simp only [List.map_cons, List.nodup_cons] at h
    simp only [dictErase]
    by_cases he : k2 = k
    · rw [if_pos he]
      exact dictLookup_eq_none_of_not_mem k rest (he ▸ h.1)
    · rw [if_neg he]
      simp only [dictLookup]
      rw [if_neg he]
      exact ih h.2

theorem dictLookup_dictInsert_self (k : String) (v : α) (l : List (String × α)) :
    dictLookup k (dictInsert k v l) = some v := by
  induction l with
  | nil => simp [dictInsert, dictLookup]
  | cons kv rest ih =>
    obtain ⟨k2, v2⟩ := kv
    simp only [dictInsert]
    by_cases he : k2 = k
    · rw [if_pos he]; simp [dictLookup]
    · rw [if_neg he]
      simp only [dictLookup]
      rw [if_neg he]
      exact ih

theorem load_config_of_valid (st : FSState) (c : Config)
    (hv : st.store = .valid c) : load_config st = some (c, st) := by
  obtain ⟨store, envFiles, backups⟩ := st
  cases store <;> simp_all [load_config, initialize_config]

/-! ## Register and unregister -/

/-- The filesystem state after the success path of `register_service`:
the entry is appended to the loaded config, the config is saved (with the
save-time backup rule), and the mirror file is written. -/
def registerSuccessState (st : FSState) (c : Config) (name : String)
    (e : ServiceEntry) : FSState :=
  create_env_file name e
    (save_config { c with services := c.services ++ [(name, e)] } st)

theorem register_success_explicit (st : FSState) (c : Config)
    (hv : st.store = .valid c) (name command wd range_name home : String)
    (env_vars : List String) (p : Nat)
    (hfree : dictLookup name c.services = none) (hp : p ≠ 0) :
    register_service st name command (some p) wd range_name env_vars home
      = some ((true, .inr p),
          registerSuccessState st c name (registeredEntry command p wd home env_vars)) := by
  have hload := load_config_of_valid st c hv
  simp [register_service, hload, hfree, natTruthy, hp, registerSuccessState]

theorem register_success_auto (st : FSState) (c : Config)
    (hv : st.store = .valid c) (name command wd range_name home : String)
    (env_vars : List String) (port : Option Nat) (pr : PortRange) (q : Nat)
    (hfree : dictLookup name c.services = none)
    (hport : natTruthy port = false)
    (hpr : dictLookup range_name c.port_ranges = some pr)
    (hfind : find_available_port pr c = some q) :
    register_service st name command port wd range_name env_vars home
      = some ((true, .inr q),
          registerSuccessState st c name (registeredEntry command q wd home env_vars)) := by
  have hload := load_config_of_valid st c hv
  simp [register_service, hload, hfree, hport, hpr, hfind, registerSuccessState]

/-- Claim C6: `register_service` fails with the already-exists message when
the name is taken, with the unknown-range message when no (truthy) port is
given and the range name is missing, and with the exhaustion message when
auto-assignment finds no free port; each failure leaves the whole
filesystem state unchanged.  On success an explicit nonzero port wins over
auto-assignment, the created entry starts with `enabled = false` and
carries the chosen port, the store is saved and the mirror record is
written (the `registerSuccessState` formula). -/
theorem register_service_spec (st : FSState) (c : Config)
    (hv : st.store = .valid c) (name command wd range_name home : String)
    (env_vars : List String) (port : Option Nat) :
    ((dictLookup name c.services).isSome = true →
      register_service st name command port wd range_name env_vars home
        = some ((false, .inl ("Service " ++ name ++ " already exists")), st)) ∧
    (dictLookup name c.services = none → natTruthy port = false →
      dictLookup range_name c.port_ranges = none →
      register_service st name command port wd range_name env_vars home
        = some ((false, .inl ("Port range " ++ range_name ++ " not defined")), st)) ∧
    (∀ pr, dictLookup name c.services = none → natTruthy port = false →
      dictLookup range_name c.port_ranges = some pr →
      find_available_port pr c = none →
      register_service st name command port wd range_name env_vars home
        = some ((false, .inl ("No available ports in range "
            ++ natToString pr.start ++ "-" ++ natToString pr.end_)), st)) ∧
    (∀ p, dictLookup name c.services = none → port = some p → p ≠ 0 →
      register_service st name command port wd range_name env_vars home
        = some ((true, .inr p),
            registerSuccessState st c name (registeredEntry command p wd home env_vars)) ∧
      (registeredEntry command p wd home env_vars).enabled = false ∧
      (registeredEntry command p wd home env_vars).port = p) := by
  have hload := load_config_of_valid st c hv
  refine ⟨?_, ?_, ?_, ?_⟩
  · intro h
    simp [register_service, hload, h]
  · intro h1 h2 h3
    simp [register_service, hload, h1, h2, h3]
  · intro pr h1 h2 h3 h4
    simp [register_service, hload, h1, h2, h3, h4]
  · rintro p h1 rfl h3
    exact ⟨register_success_explicit st c hv name command wd range_name home
      env_vars p h1 h3, rfl, rfl⟩

/-- Witness state: a valid store holding one service on port 8000 with the
default range 8000-8002. -/
def wState : FSState :=
  { store := .valid wConfig, envFiles := [], backups := [] }

/-- Witness configuration whose only range is fully used. -/
def wConfigTight : Config :=
  { services := [("svc", wEntry)]
    port_ranges := [("tight", { start := 8000, end_ := 8000 })] }

theorem register_service_spec_witness :
    register_service wState "svc" "run" none "" "default" [] "/root"
      = some ((false, .inl "Service svc already exists"), wState) ∧
    register_service wState "new" "run" none "" "custom" [] "/root"
      = some ((false, .inl "Port range custom not defined"), wState) ∧
    register_service { store := .valid wConfigTight, envFiles := [], backups := [] }
        "new" "run" none "" "tight" [] "/root"
      = some ((false, .inl "No available ports in range 8000-8000"),
          { store := .valid wConfigTight, envFiles := [], backups := [] }) ∧
    register_service wState "new" "run" (some 9100) "" "default" [] "/root"
      = some ((true, .inr 9100),
          registerSuccessState wState wConfig "new"
            (registeredEntry "run" 9100 "" "/root" [])) := by
  have h1 := (register_service_spec wState wConfig rfl "svc" "run" "" "default"
    "/root" [] none).1 (by decide)
  have h2 := (register_service_spec wState wConfig rfl "new" "run" "" "custom"
    "/root" [] none).2.1 (by decide) (by decide) (by decide)
  have h3 := (register_service_spec
    { store := .valid wConfigTight, envFiles := [], backups := [] } wConfigTight
    rfl "new" "run" "" "tight" "/root" [] none).2.2.1
    { start := 8000, end_ := 8000 } (by decide) (by decide) (by decide) (by decide)
  have h4 := ((register_service_spec wState wConfig rfl "new" "run" "" "default"
    "/root" [] (some 9100)).2.2.2 9100 (by decide) rfl (by decide)).1
  exact ⟨h1, h2, h3, h4⟩

/-- Claim C7: unregistering a registered name removes the entry, saves the
store (appending the save-time backup) and deletes the mirror file; an
immediately repeated unregister of the same name returns the not-found
message and leaves the state of the first call entirely unchanged. -/
theorem unregister_service_spec (st : FSState) (c : Config)
    (hv : st.store = .valid c) (name : String)
    (hnd : (c.services.map Prod.fst).Nodup)
    (hin : (dictLookup name c.services).isSome = true) :
    ∃ st2, unregister_service st name = some ((true, none), st2) ∧
      st2.store = .valid { c with services := dictErase name c.services } ∧
      st2.envFiles = dictErase name st.envFiles ∧
      st2.backups = st.backups ++ [.valid c] ∧
      unregister_service st2 name
        = some ((false, some ("Service " ++ name ++ " not found")), st2) := by
  have hload := load_config_of_valid st c hv
  have hne : c.services ≠ [] := by
    intro h; rw [h] at hin; simp [dictLookup] at hin
  refine ⟨{ (save_config { c with services := dictErase name c.services } st) with
      envFiles := dictErase name
        (save_config { c with services := dictErase name c.services } st).envFiles },
    ?_, ?_, ?_, ?_, ?_⟩
  · simp [unregister_service, hload, hin]
  · simp [save_config, backup_config, hv, List.isEmpty_iff, hne]
  · simp [save_config, backup_config, hv, List.isEmpty_iff, hne]
  · simp [save_config, backup_config, hv, List.isEmpty_iff, hne]
  · have hgone := dictLookup_dictErase_self name c.services hnd
    have hv2 : (save_config { c with services := dictErase name c.services } st).store
        = .valid { c with services := dictErase name c.services } := by
      simp [save_config]
    have hload2 := load_config_of_valid
      { (save_config { c with services := dictErase name c.services } st) with
          envFiles := dictErase name
            (save_config { c with services := dictErase name c.services } st).envFiles }
      { c with services := dictErase name c.services } hv2
    simp [unregister_service, hload2, hgone]

theorem unregister_service_spec_witness :
    ∃ st2, unregister_service wState "svc" = some ((true, none), st2) ∧
      st2.store = .valid { wConfig with services := [] } := by
  obtain ⟨st2, h1, h2, h3, h4, h5⟩ :=
    unregister_service_spec wState wConfig rfl "svc" (by decide) (by decide)
  exact ⟨st2, h1, h2⟩

/-- Claim C10: `register_service` treats an explicit port 0 exactly like an
absent port (`if not port:`), so a request for port 0 triggers
auto-assignment and the stored port is the allocated one, which always lies
inside the named range; conversely any nonzero explicit port skips the
range lookup and allocation entirely, succeeding even when the range name
does not exist. -/
theorem register_port_falsy (st : FSState) (name command wd range_name home : String)
    (env_vars : List String) :
    (register_service st name command (some 0) wd range_name env_vars home
      = register_service st name command none wd range_name env_vars home) ∧
    (∀ c pr q, st.store = .valid c → dictLookup name c.services = none →
      dictLookup range_name c.port_ranges = some pr →
      find_available_port pr c = some q →
      register_service st name command (some 0) wd range_name env_vars home
        = some ((true, .inr q),
            registerSuccessState st c name (registeredEntry command q wd home env_vars)) ∧
      pr.start ≤ q ∧ q ≤ pr.end_) ∧
    (∀ c p, st.store = .valid c → dictLookup name c.services = none → p ≠ 0 →
      register_service st name command (some p) wd range_name env_vars home
        = some ((true, .inr p),
            registerSuccessState st c name (registeredEntry command p wd home env_vars))) := by
  refine ⟨?_, ?_, ?_⟩
  · simp [register_service, natTruthy]
  · intro c pr q hv hfree hpr hfind
    obtain ⟨hq1, hq2, _, _⟩ := findPortAux_some _ _ _ _ hfind
    exact ⟨register_success_auto st c hv name command wd range_name home env_vars
      (some 0) pr q hfree (by simp [natTruthy]) hpr hfind, hq1, by omega⟩
  · intro c p hv hfree hp
    exact register_success_explicit st c hv name command wd range_name home
      env_vars p hfree hp

theorem register_port_falsy_witness :
    register_service wState "new" "run" (some 0) "" "default" [] "/root"
      = register_service wState "new" "run" none "" "default" [] "/root" ∧
    register_service wState "new" "run" (some 0) "" "default" [] "/root"
      = some ((true, .inr 8001),
          registerSuccessState wState wConfig "new"
            (registeredEntry "run" 8001 "" "/root" [])) ∧
    8000 ≤ 8001 ∧ 8001 ≤ 8002 := by
  have h1 := (register_port_falsy wState "new" "run" "" "default" "/root" []).1
  have h2 := (register_port_falsy wState "new" "run" "" "default" "/root" []).2.1
    wConfig { start := 8000, end_ := 8002 } 8001 rfl (by decide) (by decide) (by decide)
  exact ⟨h1, h2.1, h2.2.1, h2.2.2⟩

/-! ## Port / env synchronisation -/

/-- Claim C4, counterexample: an edit that only removes the `PORT`
environment variable (no port given, no detection requested) leaves the
stored entry with port 8000 but no `PORT` key in its env map, so
`env["PORT"] = str(port)` does not hold after every registry mutation. -/
theorem edit_drops_port_env_cex :
    edit_service wEntry
        { command := none, port := none, path := none, env_add := []
          env_remove := ["PORT"], detect_port := false } none
      = { wEntry with env := [] } ∧
    dictLookup "PORT"
        (edit_service wEntry
          { command := none, port := none, path := none, env_add := []
            env_remove := ["PORT"], detect_port := false } none).env = none ∧
    (edit_service wEntry
        { command := none, port := none, path := none, env_add := []
          env_remove := ["PORT"], detect_port := false } none).port = 8000 := by
  decide

/-- Claim C4, amended: `env["PORT"] = str(port)` holds for the entry built
by every successful `register_service`, after every edit that supplies a
truthy port or requests port detection, and is preserved (and re-established
on an actual port change) by the post-start reconciliation; but an edit
that removes or overwrites the `PORT` env key without requesting a port
update can break the invariant. -/
theorem port_env_sync :
    (∀ (command : String) (p : Nat) (wd home : String) (env_vars : List String),
      dictLookup "PORT" (registeredEntry command p wd home env_vars).env
        = some (natToString p)) ∧
    (∀ (s : ServiceEntry) (args : EditArgs) (detected : Option Nat),
      (natTruthy args.port || args.detect_port) = true →
      dictLookup "PORT" (edit_service s args detected).env
        = some (natToString (edit_service s args detected).port)) ∧
    (∀ (s : ServiceEntry) (d : Option Nat),
      dictLookup "PORT" s.env = some (natToString s.port) →
      dictLookup "PORT" (reconcile_after_start s d).env
        = some (natToString (reconcile_after_start s d).port)) := by
  refine ⟨?_, ?_, ?_⟩
  · intro command p wd home env_vars
    exact dictLookup_dictInsert_self "PORT" (natToString p) _
  · intro s args detected h
    by_cases hd : args.detect_port = true
    · simp [edit_service, hd, dictLookup_dictInsert_self]
    · simp only [Bool.or_eq_true] at h
      rcases h with hp | hp
      · simp [edit_service, hd, hp, dictLookup_dictInsert_self]
      · exact absurd hp hd
  · intro s d h
    match d with
    | none => simpa [reconcile_after_start] using h
    | some p =>
      by_cases hp : p ≠ s.port
      · simp [reconcile_after_start, hp, dictLookup_dictInsert_self]
      · simpa [reconcile_after_start, hp] using h

theorem port_env_sync_witness :
    dictLookup "PORT" (registeredEntry "run" 9100 "" "/root" []).env
      = some "9100" ∧
    dictLookup "PORT"
        (edit_service wEntry
          { command := none, port := some 9000, path := none, env_add := []
            env_remove := [], detect_port := false } none).env
      = some (natToString
          (edit_service wEntry
            { command := none, port := some 9000, path := none, env_add := []
              env_remove := [], detect_port := false } none).port) ∧
    dictLookup "PORT" (reconcile_after_start wEntry (some 9100)).env
      = some (natToString (reconcile_after_start wEntry (some 9100)).port) := by
  refine ⟨?_, ?_, ?_⟩
  · exact port_env_sync.1 "run" 9100 "" "/root" []
  · exact port_env_sync.2.1 wEntry
      { command := none, port := some 9000, path := none, env_add := []
        env_remove := [], detect_port := false } none (by decide)
  · exact port_env_sync.2.2 wEntry (some 9100) (by decide)

/-! ## Default working directory -/

/-- Claim C9: at registration an empty directory argument defaults to the
home directory handed in for `str(Path.home())`, but the recovery parser
initialises the working directory to the hardcoded string
`"/home/simonsays"`, so recovering a mirror record without a `WORKING_DIR`
line yields that literal rather than the current home directory
(evaluated here with home `"/root"`). -/
theorem recover_working_dir_hardcoded :
    recover_from_env_files (fun _ => true) (fun _ => true)
        [{ name := "a", lines := ["COMMAND=run", "PORT=8000"] }]
      = some [("a",
          { command := "run", port := 8000, working_dir := "/home/simonsays",
            enabled := true, env := [] })] ∧
    (registeredEntry "run" 8000 "" "/root" []).working_dir = "/root" ∧
    "/home/simonsays" ≠ "/root" := by
  decide

/-! ## Decimal and line-splitting round trips -/

theorem charDigit_digitChar (d : Nat) (h : d < 10) :
    charDigit (digitChar d) = some d := by
  interval_cases d <;> decide

theorem parseDigits_append (l1 l2 : List Char) :
    ∀ acc, parseDigits acc (l1 ++ l2)
      = match parseDigits acc l1 with
        | none => none
        | some m => parseDigits m l2 := by
  induction l1 with
  | nil => intro acc; rfl
  | cons c cs ih =>
    intro acc
    cases h : charDigit c with
    | none => simp [parseDigits, h]
    | some d => simp [parseDigits, h, ih]

theorem natDigitsAux_ne_nil (fuel n : Nat) (h : 0 < fuel) :
    natDigitsAux fuel n ≠ [] := by
  match fuel, h with
  | f + 1, _ =>
    rw [natDigitsAux]
    by_cases h10 : n < 10
    · rw [if_pos h10]; simp
    · rw [if_neg h10]; simp

theorem natDigitsAux_parse (fuel : Nat) :
    ∀ n, n < fuel → ∀ acc, ∃ k,
      parseDigits acc (natDigitsAux fuel n) = some (acc * 10 ^ k + n) := by
  induction fuel with
  | zero => intro n h; omega
  | succ f ih =>
    intro n h acc
    rw [natDigitsAux]
    by_cases h10 : n < 10
    · rw [if_pos h10]
      refine ⟨1, ?_⟩
      simp only [parseDigits, charDigit_digitChar n h10, pow_one]
    · rw [if_neg h10]
      have hdiv : n / 10 < f := by
        have := Nat.div_lt_self (by omega : 0 < n) (by omega : 1 < 10)
        omega
      obtain ⟨k, hk⟩ := ih (n / 10) hdiv acc
      refine ⟨k + 1, ?_⟩
      rw [parseDigits_append, hk]
      simp only [parseDigits, charDigit_digitChar (n % 10) (Nat.mod_lt n (by omega))]
      have hA : acc * 10 ^ (k + 1) = acc * 10 ^ k * 10 := by
        rw [pow_succ, mul_assoc]
      rw [hA]
      congr 1
      generalize acc * 10 ^ k = A
      omega

theorem strToNat_natToString (n : Nat) : strToNat (natToString n) = some n := by
  obtain ⟨k, hk⟩ := natDigitsAux_parse (n + 1) n (by omega) 0
  have hne := natDigitsAux_ne_nil (n + 1) n (by omega)
  cases hd : natDigitsAux (n + 1) n with
  | nil => exact absurd hd hne
  | cons c cs =>
    rw [hd] at hk
    calc strToNat (natToString n) = strToNat (String.mk (c :: cs)) := by
          rw [natToString, hd]
      _ = parseDigits 0 (c :: cs) := rfl
      _ = some n := by simpa using hk

theorem splitFirst_append (k v : List Char) (h : '=' ∉ k) :
    splitFirst '=' (k ++ '=' :: v) = some (k, v) := by
  induction k with
  | nil => simp [splitFirst]
  | cons c cs ih =>
    simp only [List.mem_cons, not_or] at h
    rw [show (c :: cs) ++ '=' :: v = c :: (cs ++ '=' :: v) from rfl]
    rw [splitFirst, if_neg (fun he => h.1 he.symm), ih h.2]

theorem splitEq_append (k v : String) (h : '=' ∉ k.data) :
    splitEq (k ++ "=" ++ v) = some (k, v) := by
  have hdata : (k ++ "=" ++ v).data = k.data ++ '=' :: v.data := by
    rw [String.data_append, String.data_append]
    simp
  rw [splitEq, hdata, splitFirst_append k.data v.data h]

theorem dictInsert_of_not_mem (k : String) (v : α) (l : List (String × α))
    (h : k ∉ l.map Prod.fst) : dictInsert k v l = l ++ [(k, v)] := by
  induction l with
  | nil => rfl
  | cons kv rest ih =>
    obtain ⟨k2, v2⟩ := kv
    simp only [List.map_cons, List.mem_cons, not_or] at h
    simp only [dictInsert]
    rw [if_neg (fun he => h.1 he.symm), ih h.2]
    rfl

/-- The accumulation the env lines of a written mirror file perform on the
parse state (a `PORT` env line re-sets the port field, every other line
inserts into the env map). -/
def envFold (l : List (String × String)) (acc : List (String × String)) :
    List (String × String) :=
  l.foldl (fun acc kv => if kv.1 = "PORT" then acc else dictInsert kv.1 kv.2 acc) acc

theorem envFold_filter (l : List (String × String)) :
    ∀ acc, (∀ kv ∈ l, kv.1 ∉ acc.map Prod.fst) → (l.map Prod.fst).Nodup →
    envFold l acc = acc ++ l.filter (fun kv => kv.1 ≠ "PORT") := by
  induction l with
  | nil => intro acc _ _; simp [envFold]
  | cons kv rest ih =>
    intro acc hmem hnd
    obtain ⟨k, v⟩ := kv
    simp only [List.map_cons, List.nodup_cons] at hnd
    simp only [envFold, List.foldl_cons]
    by_cases hp : k = "PORT"
    · rw [if_pos hp]
      rw [show List.foldl
          (fun acc kv => if kv.1 = "PORT" then acc else dictInsert kv.1 kv.2 acc)
          acc rest = envFold rest acc from rfl]
      rw [ih acc (fun kv h => hmem kv (List.mem_cons_of_mem _ h)) hnd.2]
      simp [List.filter_cons, hp]
    · rw [if_neg hp]
      have hknotin : k ∉ acc.map Prod.fst :=
        hmem (k, v) (List.mem_cons_self _ _)
      rw [dictInsert_of_not_mem k v acc hknotin]
      rw [show List.foldl
          (fun acc kv => if kv.1 = "PORT" then acc else dictInsert kv.1 kv.2 acc)
          (acc ++ [(k, v)]) rest = envFold rest (acc ++ [(k, v)]) from rfl]
      rw [ih (acc ++ [(k, v)]) ?_ hnd.2]
      · simp only [List.filter_cons]
        rw [if_pos (by simpa using hp)]
        simp
      · intro kv2 h2
        simp only [List.map_append, List.mem_append, List.map_cons, not_or]
        refine ⟨fun hin => hmem kv2 (List.mem_cons_of_mem _ h2) hin, ?_⟩
        simp only [List.map_nil, List.mem_singleton]
        intro he
        exact hnd.1 (he ▸ List.mem_map_of_mem Prod.fst h2)

theorem parseEnvLine_eq (ps : ParsedEnv) (line k v : String)
    (hstrip : stripLine line = line) (hsplit : splitEq line = some (k, v)) :
    parseEnvLine ps line =
      (if k = "COMMAND" then some { ps with command := some v }
       else if k = "PORT" then
         match strToNat v with
         | none => none
         | some n => some { ps with port := some n }
       else if k = "WORKING_DIR" then some { ps with working_dir := v }
       else some { ps with env_vars := dictInsert k v ps.env_vars }) := by
  rw [parseEnvLine, hstrip, hsplit]

theorem parse_env_lines (p0 : Nat) (l : List (String × String))
    (henv : ∀ kv ∈ l, '=' ∉ kv.1.data ∧
      stripLine (kv.1 ++ "=" ++ kv.2) = kv.1 ++ "=" ++ kv.2 ∧
      kv.1 ≠ "COMMAND" ∧ kv.1 ≠ "WORKING_DIR" ∧
      (kv.1 = "PORT" → kv.2 = natToString p0)) :
    ∀ ps : ParsedEnv, ps.port = some p0 →
    List.foldlM parseEnvLine ps (l.map (fun kv => kv.1 ++ "=" ++ kv.2))
      = some { ps with env_vars := envFold l ps.env_vars } := by
  induction l with
  | nil => intro ps _; rfl
  | cons kv rest ih =>
    intro ps hport
    obtain ⟨k, v⟩ := kv
    obtain ⟨hk1, hk2, hk3, hk4, hk5⟩ := henv (k, v) (List.mem_cons_self _ _)
    simp only at hk1 hk2 hk3 hk4 hk5
    have hrest := fun kv h => henv kv (List.mem_cons_of_mem _ h)
    simp only [List.map_cons, List.foldlM_cons]
    rw [parseEnvLine_eq ps _ k v hk2 (splitEq_append k v hk1)]
    rw [if_neg hk3]
    by_cases hp : k = "PORT"
    · rw [if_pos hp, hk5 hp, strToNat_natToString]
      have hps : ({ ps with port := some p0 } : ParsedEnv) = ps := by
        obtain ⟨ev, cm, po, wd⟩ := ps
        simp only at hport
        rw [hport]
      simp only [Option.bind_eq_bind, Option.some_bind]
      rw [hps, ih hrest ps hport]
      simp [envFold, List.foldl_cons, hp]
    · rw [if_neg hp, if_neg hk4]
      simp only [Option.bind_eq_bind, Option.some_bind]
      rw [ih hrest { ps with env_vars := dictInsert k v ps.env_vars } hport]
      simp [envFold, List.foldl_cons, hp]

/-- Claim C5, counterexample: the entry `register_service` itself builds
(command run, port 8000, env containing the mandatory `PORT` entry) does not
round-trip through the environment mirror: reading back the written file
yields an empty env map, because the `PORT` env entry is folded into the
port field instead of the env map. -/
theorem env_roundtrip_cex :
    wEntry.env = [("PORT", "8000")] ∧
    (parseEnvFile (envFileLines wEntry)).map (fun ps => ps.env_vars)
      = some [] ∧
    ([] : List (String × String)) ≠ [("PORT", "8000")] := by
  decide

/-- Claim C5, amended: write-then-read of the environment mirror restores
the command, the port, the working directory when one is set (the hardcoded
recovery default otherwise), and the env map restricted to keys other than
`PORT` (entries named `COMMAND` or `WORKING_DIR` are excluded by hypothesis,
since they would overwrite the corresponding fields, and a `PORT` entry must
carry the serialized port, since the written `PORT` line and the env entry
collapse into one key on read); lines are assumed whitespace-trim-invariant
and keys free of `=`, matching what the writer itself produces for sane
entries. -/
theorem env_roundtrip (e : ServiceEntry)
    (hcmd : stripLine ("COMMAND=" ++ e.command) = "COMMAND=" ++ e.command)
    (hwd : e.working_dir ≠ "" →
      stripLine ("WORKING_DIR=" ++ e.working_dir) = "WORKING_DIR=" ++ e.working_dir)
    (hpl : stripLine ("PORT=" ++ natToString e.port) = "PORT=" ++ natToString e.port)
    (henv : ∀ kv ∈ e.env, '=' ∉ kv.1.data ∧
      stripLine (kv.1 ++ "=" ++ kv.2) = kv.1 ++ "=" ++ kv.2 ∧
      kv.1 ≠ "COMMAND" ∧ kv.1 ≠ "WORKING_DIR" ∧
      (kv.1 = "PORT" → kv.2 = natToString e.port))
    (hnd : (e.env.map Prod.fst).Nodup) :
    parseEnvFile (envFileLines e) = some
      { env_vars := e.env.filter (fun kv => kv.1 ≠ "PORT")
        command := some e.command
        port := some e.port
        working_dir :=
          if e.working_dir ≠ "" then e.working_dir else "/home/simonsays" } := by
  have hsplit_cmd : splitEq ("COMMAND=" ++ e.command) = some ("COMMAND", e.command) := by
    have := splitEq_append "COMMAND" e.command (by decide)
    simpa using this
  have hsplit_port :
      splitEq ("PORT=" ++ natToString e.port) = some ("PORT", natToString e.port) := by
    have := splitEq_append "PORT" (natToString e.port) (by decide)
    simpa using this
  have hstep1 : parseEnvLine initParsedEnv ("COMMAND=" ++ e.command)
      = some { initParsedEnv with command := some e.command } := by
    rw [parseEnvLine_eq initParsedEnv _ "COMMAND" e.command hcmd hsplit_cmd]
    rw [if_pos rfl]
  have hstep_port : ∀ ps : ParsedEnv,
      parseEnvLine ps ("PORT=" ++ natToString e.port)
        = some { ps with port := some e.port } := by
    intro ps
    rw [parseEnvLine_eq ps _ "PORT" (natToString e.port) hpl hsplit_port]
    rw [if_neg (by decide), if_pos rfl, strToNat_natToString]
  have hmain := parse_env_lines e.port e.env henv
  have hfold := envFold_filter e.env [] (by simp) hnd
  by_cases hw : e.working_dir ≠ ""
  · have hsplit_wd : splitEq ("WORKING_DIR=" ++ e.working_dir)
        = some ("WORKING_DIR", e.working_dir) := by
      have := splitEq_append "WORKING_DIR" e.working_dir (by decide)
      simpa using this
    have hstep_wd : ∀ ps : ParsedEnv,
        parseEnvLine ps ("WORKING_DIR=" ++ e.working_dir)
          = some { ps with working_dir := e.working_dir } := by
      intro ps
      rw [parseEnvLine_eq ps _ "WORKING_DIR" e.working_dir (hwd hw) hsplit_wd]
      rw [if_neg (by decide), if_neg (by decide), if_pos rfl]
    rw [parseEnvFile, envFileLines, if_pos hw]
    simp only [List.cons_append, List.singleton_append, List.nil_append,
      List.foldlM_cons, Option.bind_eq_bind]
    rw [hstep1]
    simp only [Option.some_bind]
    rw [hstep_wd]
    simp only [Option.some_bind, List.nil_append]
    rw [hstep_port]
    simp only [Option.some_bind]
    rw [hmain _ rfl]
    simp only [initParsedEnv, hfold, List.nil_append, if_pos hw]
  · have hw0 : e.working_dir = "" := by
      by_contra h; exact hw h
    rw [parseEnvFile, envFileLines, if_neg hw]
    simp only [List.nil_append, List.foldlM_cons, Option.bind_eq_bind]
    rw [hstep1]
    simp only [Option.some_bind]
    rw [hstep_port]
    simp only [Option.some_bind]
    rw [hmain _ rfl]
    simp only [initParsedEnv, hfold, List.nil_append, if_neg hw]

/-- Witness entry: an ordinary env map plus the mandatory `PORT` entry. -/
def wEntry2 : ServiceEntry :=
  { command := "run srv", port := 9000, working_dir := "/srv", enabled := false
    env := [("FOO", "bar"), ("PORT", "9000")] }

theorem env_roundtrip_witness :
    parseEnvFile (envFileLines wEntry2) = some
      { env_vars := wEntry2.env.filter (fun kv => kv.1 ≠ "PORT")
        command := some wEntry2.command
        port := some wEntry2.port
        working_dir :=
          if wEntry2.working_dir ≠ "" then wEntry2.working_dir
          else "/home/simonsays" } :=
  env_roundtrip wEntry2 (by decide) (fun _ => by decide) (by decide)
    (by decide) (by decide)

/-! ## Recovery selectivity -/

/-- A mirror file the recovery loop accepts once its unit is active: it
parses without a `ValueError` and the parsed `command and port` guard is
truthy. -/
def mirrorWellFormed (f : MirrorFile) : Bool :=
  match parseEnvFile f.lines with
  | none => false
  | some ps => parsedTruthy ps

theorem recover_files_eq (isActive isEnabled : String → Bool) :
    ∀ files : List MirrorFile, (∀ f ∈ files, mirrorWellFormed f = true) →
    recover_from_env_files isActive isEnabled files
      = some ((files.filter (fun f => isActive f.name)).map
          (fun f => (f.name,
            recoveredEntry ((parseEnvFile f.lines).getD initParsedEnv)
              (isEnabled f.name)))) := by
  intro files
  induction files with
  | nil => intro _; rfl
  | cons f rest ih =>
    intro hwf
    have hf := hwf f (List.mem_cons_self _ _)
    have hrest := ih (fun g h => hwf g (List.mem_cons_of_mem _ h))
    rw [recover_from_env_files]
    by_cases ha : isActive f.name = true
    · rw [if_pos ha]
      cases hp : parseEnvFile f.lines with
      | none =>
        simp [mirrorWellFormed, hp] at hf
      | some ps =>
        have htr : parsedTruthy ps = true := by
          simpa only [mirrorWellFormed, hp] using hf
        simp [hrest, htr, List.filter_cons, ha, hp]
    · rw [if_neg ha, hrest]
      simp [List.filter_cons, ha]

/-- Claim C3, counterexample: an environment-mirror file whose unit is
active but which lacks `COMMAND` and `PORT` lines is silently dropped by
`recover_from_env_files` (nothing recovered, count 0), so recovery does not
reconstruct every record whose process is active. -/
theorem recover_selectivity_cex :
    recover_from_env_files (fun _ => true) (fun _ => true)
        [{ name := "a", lines := ["FOO=bar"] }] = some [] ∧
    (fun (_ : String) => true) "a" = true ∧
    recover_config (fun _ => true) (fun _ => true)
        [{ name := "a", lines := ["FOO=bar"] }]
        { store := .absent, envFiles := [], backups := [] }
      = some (0,
          { store := .valid
              { services := [],
                port_ranges := [("default", { start := 8000, end_ := 9000 })] },
            envFiles := [], backups := [] }) := by
  refine ⟨by decide, rfl, by decide⟩

/-- Claim C3, amended: for mirror records that are well formed (they parse,
with a truthy command and port — which every record the writer produces for
a registered service is), `recover_from_env_files` reconstructs exactly the
records whose unit is active, each with `enabled` set to the autostart
status of its unit, omitting inactive records; `recover_config` saves the
assembled registry with the single default port range and returns the count
of recovered services (0 being a valid outcome); records that are active
but malformed are additionally dropped (see the counterexample). -/
theorem recover_selectivity (isActive isEnabled : String → Bool)
    (files : List MirrorFile)
    (hwf : ∀ f ∈ files, mirrorWellFormed f = true) (st : FSState) :
    recover_from_env_files isActive isEnabled files
      = some ((files.filter (fun f => isActive f.name)).map
          (fun f => (f.name,
            recoveredEntry ((parseEnvFile f.lines).getD initParsedEnv)
              (isEnabled f.name)))) ∧
    ∃ st2,
      recover_config isActive isEnabled files st
        = some ((files.filter (fun f => isActive f.name)).length, st2) ∧
      st2.store = .valid
        { services := (files.filter (fun f => isActive f.name)).map
            (fun f => (f.name,
              recoveredEntry ((parseEnvFile f.lines).getD initParsedEnv)
                (isEnabled f.name)))
          port_ranges := [("default", { start := 8000, end_ := 9000 })] } := by
  have hfiles := recover_files_eq isActive isEnabled files hwf
  refine ⟨hfiles, ?_⟩
  rw [recover_config, hfiles]
  simp only [List.length_map]
  exact ⟨_, rfl, rfl⟩

/-- Witness activity: service c is the inactive one. -/
def wActive : String → Bool := fun n => n ≠ "c"

/-- Witness autostart status: only service a is enabled. -/
def wEnabled : String → Bool := fun n => n = "a"

/-- Witness mirror files for services a, b (active) and c (inactive). -/
def wFiles : List MirrorFile :=
  [{ name := "a", lines := ["COMMAND=run", "PORT=8001"] },
   { name := "b", lines := ["COMMAND=run", "PORT=8002"] },
   { name := "c", lines := ["COMMAND=run", "PORT=8003"] }]

theorem recover_selectivity_witness :
    recover_from_env_files wActive wEnabled wFiles
      = some
        [("a", { command := "run", port := 8001,
                 working_dir := "/home/simonsays", enabled := true, env := [] }),
         ("b", { command := "run", port := 8002,
                 working_dir := "/home/simonsays", enabled := false, env := [] })] := by
  have h := (recover_selectivity wActive wEnabled wFiles (by decide)
    { store := .absent, envFiles := [], backups := [] }).1
  rw [h]
  decide

end ControlPanel
